import Mathlib

/-!
Verification of the APKInsightScraper UUID-extraction pipeline.

The Python source (`apkAnalyzer.py`, `extracter.py`, `database.py`) is shallowly
embedded below.  Lines of text are `List Char`; Python exceptions are the
`PyErr` error type of `Except`; fallible Python code becomes `Except`-valued
Lean functions.  `re.search` with the fixed UUID regex is embedded as an
explicit left-to-right scan (`searchUuid`); Python's `str.split`, `str.strip`
and list indexing are embedded by small total functions mirroring their
documented semantics.
-/

/-- The Python exceptions that can arise in the embedded pipeline.
All of them derive from `Exception` in Python, hence all are caught by the
`except Exception` handler in `extract_uuids_from_apk`. -/
inductive PyErr where
  | indexError
  | unicodeDecodeError
  | calledProcessError
  | fileNotFoundError
  | permissionError
  | typeError
  | keyError
deriving DecidableEq, Repr

/-- Embedding of the `UUIDInfo` dataclass (`apkAnalyzer.py` lines 15-37).
The Python field `variable` is called `varName` here because `variable` is a
Lean keyword. -/
structure UUIDInfo where
  uuid : List Char
  varName : List Char
  path : List Char
deriving DecidableEq, Repr

instance {ε α : Type} [DecidableEq ε] [DecidableEq α] : DecidableEq (Except ε α) := fun x y =>
  match x, y with
  | Except.error e, Except.error f =>
    if h : e = f then Decidable.isTrue (h ▸ rfl)
    else Decidable.isFalse (fun hh => h (Except.error.inj hh))
  | Except.ok a, Except.ok b =>
    if h : a = b then Decidable.isTrue (h ▸ rfl)
    else Decidable.isFalse (fun hh => h (Except.ok.inj hh))
  | Except.error _, Except.ok _ => Decidable.isFalse (fun hh => Except.noConfusion hh)
  | Except.ok _, Except.error _ => Decidable.isFalse (fun hh => Except.noConfusion hh)

/-- The whitespace characters recognised by Python's no-argument `str.split`
and `str.strip` (for the ASCII range actually occurring in decompiled Java). -/
def pyIsSpace (c : Char) : Bool :=
  c == ' ' || c == '\t' || c == '\n' || c == '\x0d' || c == '\x0b' || c == '\x0c'

/-- The character class `[0-9a-fA-F]` of the UUID regex. -/
def isUuidHexDigit (c : Char) : Bool :=
  ('0'.toNat ≤ c.toNat && c.toNat ≤ '9'.toNat) ||
  ('a'.toNat ≤ c.toNat && c.toNat ≤ 'f'.toNat) ||
  ('A'.toNat ≤ c.toNat && c.toNat ≤ 'F'.toNat)

/-- Offsets (within a 36-character UUID) at which the regex requires `-`. -/
def isHyphenIdx (i : Nat) : Bool :=
  i == 8 || i == 13 || i == 18 || i == 23

/-- `shapeCheck i n s` holds when the first `n` characters of `s` exist and
match the UUID pattern `[0-9a-fA-F]{8}(-[0-9a-fA-F]{4}){3}-[0-9a-fA-F]{12}`
starting at pattern offset `i`. -/
def shapeCheck : Nat → Nat → List Char → Bool
  | _, 0, _ => true
  | _, _ + 1, [] => false
  | i, n + 1, c :: rest =>
    (if isHyphenIdx i then c == '-' else isUuidHexDigit c) && shapeCheck (i + 1) n rest

/-- The UUID shape (8-4-4-4-12 hex groups) matches at the head of `s`. -/
def shapeAtHead (s : List Char) : Bool :=
  shapeCheck 0 36 s

/-- The all-zero sentinel UUID excluded by the regex's negative lookahead. -/
def allZeroUuid : List Char :=
  "00000000-0000-0000-0000-000000000000".toList

/-- Embedding of `re.search(uuid_regex, line)` (`apkAnalyzer.py` lines 51-60).
`re.search` scans positions left to right; at a position the alternative
succeeds iff the 36-character shape matches there and (negative lookahead)
the text at that position is not the all-zero literal.  When the shape
matches, the lookahead failing is equivalent to the 36 matched characters
being exactly `allZeroUuid`. -/
def searchUuid : List Char → Option (List Char)
  | [] => none
  | c :: rest =>
    if shapeAtHead (c :: rest) && !((c :: rest).take 36 == allZeroUuid)
    then some ((c :: rest).take 36)
    else searchUuid rest

/-- All UUID-shaped substrings of a line (one candidate per start position
where the bare 8-4-4-4-12 shape matches, lookahead ignored).  Used to state
claims about which lines contain UUID-shaped text. -/
def shapeSubstrings : List Char → List (List Char)
  | [] => []
  | c :: rest =>
    (if shapeAtHead (c :: rest) then [(c :: rest).take 36] else []) ++ shapeSubstrings rest

/-- Python `str.strip()`: drop leading and trailing whitespace. -/
def pyStrip (s : List Char) : List Char :=
  ((s.dropWhile pyIsSpace).reverse.dropWhile pyIsSpace).reverse

/-- Python `str.strip('"')`: drop leading and trailing `"` characters
(`match.group().strip('"')`, `apkAnalyzer.py` line 73). -/
def pyStripQuotes (s : List Char) : List Char :=
  ((s.dropWhile (· == '"')).reverse.dropWhile (· == '"')).reverse

/-- Worker for `splitWS`; `cur` accumulates the current token reversed. -/
def splitWSAux : List Char → List Char → List (List Char)
  | [], cur => if cur == [] then [] else [cur.reverse]
  | c :: rest, cur =>
    if pyIsSpace c then
      if cur == [] then splitWSAux rest [] else cur.reverse :: splitWSAux rest []
    else splitWSAux rest (c :: cur)

/-- Python's no-argument `str.split()`: runs of non-whitespace characters,
empty tokens discarded. -/
def splitWS (s : List Char) : List (List Char) :=
  splitWSAux s []

/-- The whitespace-delimited tokens to the left of the first `=` of a line
(`variable_part.split()` in `apkAnalyzer.py` lines 69-71). -/
def lhsTokens (line : List Char) : List (List Char) :=
  splitWS (pyStrip (line.takeWhile (fun c => !(c == '='))))

/-- The per-line body of `match_uuids` (`apkAnalyzer.py` lines 59-80), the
`UuidLineMatcher` of the spec, without the `path` field: it returns the
`(uuid, variable)` pair of the emitted record, `none` when the line is
skipped, or the Python exception the line raises.  `parts = line.split("=")`
followed by `len(parts) <= 1` is the test that `=` occurs in the line, and
`parts[0]` is the text before the first `=`; `variable_part.split()[-1]`
raises `IndexError` when the split is empty. -/
def matchLine (line : List Char) : Except PyErr (Option (List Char × List Char)) :=
  match searchUuid line with
  | none => Except.ok none
  | some m =>
    if line.contains '=' then
      match lhsTokens line with
      | [] => Except.error PyErr.indexError
      | t :: ts => Except.ok (some (pyStripQuotes m, (t :: ts).getLastD []))
    else Except.ok none

/-- One line of `match_uuids` together with the `UUIDInfo` construction
(`apkAnalyzer.py` lines 74-80): the record carries the file's relative path. -/
def processLine (rp line : List Char) : Except PyErr (Option UUIDInfo) :=
  match matchLine line with
  | Except.error e => Except.error e
  | Except.ok none => Except.ok none
  | Except.ok (some uv) => Except.ok (some ⟨uv.1, uv.2, rp⟩)

/-- Whether a line makes `match_uuids` emit a record (independent of the
file's path). -/
def lineEmits (line : List Char) : Bool :=
  match matchLine line with
  | Except.ok (some _) => true
  | _ => false

/-- Embedding of the module-level `match_uuids` (`apkAnalyzer.py` lines
40-82) applied to an already-decoded file: it folds the per-line matcher
over the file's lines, in order; a Python exception raised at any line
aborts the whole call (there is no handler inside the function). -/
def match_uuids (rp : List Char) : List (List Char) → Except PyErr (List UUIDInfo)
  | [] => Except.ok []
  | l :: ls =>
    match matchLine l with
    | Except.error e => Except.error e
    | Except.ok none => match_uuids rp ls
    | Except.ok (some uv) =>
      match match_uuids rp ls with
      | Except.error e => Except.error e
      | Except.ok infos => Except.ok (⟨uv.1, uv.2, rp⟩ :: infos)

/-- A file of the decompiled `sources` tree, as seen by the directory walk of
`Analyzer.match_uuids` (`apkAnalyzer.py` lines 138-145).  `parts` are the
path components of the file relative to the `sources` root (last component is
the file name); `content` is the result of opening the file with
`encoding="utf-8"` and reading its lines: a decode (or read) failure is the
exception that `open`/iteration raises, which `match_uuids` does not catch. -/
structure SrcFile where
  parts : List (List Char)
  content : Except PyErr (List (List Char))
deriving DecidableEq, Repr

/-- Join path components with the host path separator, as `os.path.join` and
`os.walk` build paths and `os.path.relpath` renders them: `os.sep` is `/` on
POSIX and `\` on Windows, and is passed here as the `sep` parameter. -/
def joinSep (sep : Char) : List (List Char) → List Char
  | [] => []
  | [p] => p
  | p :: q :: rest => p ++ sep :: joinSep sep (q :: rest)

/-- `os.path.relpath(file_path, sources_path)` for a walked file: its
components below the `sources` root joined with the host separator. -/
def relPathOf (sep : Char) (f : SrcFile) : List Char :=
  joinSep sep f.parts

/-- The `file.endswith(".java")` filter of the walk (`apkAnalyzer.py` line
140), applied to the file's name (its last path component). -/
def isJavaFile (f : SrcFile) : Bool :=
  ".java".toList.isSuffixOf (f.parts.getLastD [])

/-- `match_uuids(file_path, relpath)` for one walked file: decoding the file
may raise (propagated), otherwise the line matcher runs over its lines. -/
def fileRecords (sep : Char) (f : SrcFile) : Except PyErr (List UUIDInfo) :=
  match f.content with
  | Except.error e => Except.error e
  | Except.ok lines => match_uuids (relPathOf sep f) lines

/-- How many lines of a file make the matcher emit a record (0 for a file
that fails to decode). -/
def fileMatchCount (f : SrcFile) : Nat :=
  match f.content with
  | Except.error _ => 0
  | Except.ok lines => (lines.filter lineEmits).length

/-- Embedding of the `Analyzer.match_uuids` walk (`apkAnalyzer.py` lines
133-147), the `SourceTreeScanner` of the spec: the decompiled tree is
abstracted as the list of files the walk visits, in walk order.  Non-`.java`
files are skipped; for each `.java` file the module-level `match_uuids` runs
and its records are appended.  There is no handler in the loop, so an
exception raised while reading one file aborts the whole walk and discards
the records gathered so far. -/
def Analyzer_match_uuids (sep : Char) : List SrcFile → Except PyErr (List UUIDInfo)
  | [] => Except.ok []
  | f :: rest =>
    if isJavaFile f then
      match fileRecords sep f with
      | Except.error e => Except.error e
      | Except.ok infos =>
        match Analyzer_match_uuids sep rest with
        | Except.error e => Except.error e
        | Except.ok more => Except.ok (infos ++ more)
    else Analyzer_match_uuids sep rest

/-- `os.path.splitext(name)[0]`: the part of `name` before its last `.`,
except that a dot with only dots before it does not start an extension
(so `.apk` has no extension and is its own root). -/
def splitextRoot (name : List Char) : List Char :=
  if name.contains '.' then
    let pre := (name.reverse.dropWhile (fun c => !(c == '.'))).reverse
    if pre.dropLast.any (fun c => !(c == '.')) then pre.dropLast else name
  else name

/-- One package file of the batch, as analysed by `extract_uuids_from_apk`.
`fileName` is the file's base name (e.g. `AppA.apk`).  `outcome` abstracts
constructing the `Analyzer` and running `decompile_apk`: either a raised
exception (missing/non-regular/non-executable path pre-checks raise
`FileNotFoundError`/`PermissionError`, a nonzero decompiler exit raises
`subprocess.CalledProcessError` because of `check=True`), or the list of
files of the decompiled `sources` tree. -/
structure Package where
  fileName : List Char
  outcome : Except PyErr (List SrcFile)
deriving DecidableEq

/-- The package's display name, `os.path.splitext(os.path.basename(p))[0]`
(`apkAnalyzer.py` line 164). -/
def displayName (p : Package) : List Char :=
  splitextRoot p.fileName

/-- The body of the `try` block of `extract_uuids_from_apk` (`apkAnalyzer.py`
lines 161-165): construct the analyzer, decompile, scan, and return the
singleton mapping from the display name to the records.  Every failure is a
raised `PyErr`. -/
def analyzePipeline (sep : Char) (p : Package) :
    Except PyErr (List (List Char × List UUIDInfo)) :=
  match p.outcome with
  | Except.error e => Except.error e
  | Except.ok files =>
    match Analyzer_match_uuids sep files with
    | Except.error e => Except.error e
    | Except.ok recs => Except.ok [(displayName p, recs)]

/-- Embedding of `extract_uuids_from_apk` (`apkAnalyzer.py` lines 149-168):
the `try` body with `except Exception` returning `{}` (the empty mapping) on
any raised error. -/
def extract_uuids_from_apk (sep : Char) (p : Package) :
    List (List Char × List UUIDInfo) :=
  match analyzePipeline sep p with
  | Except.error _ => []
  | Except.ok v => v

/-- Python `dict.__setitem__` on an insertion-ordered association list:
replace the value of an existing key in place, or append a new binding. -/
def setKey : List (List Char × List UUIDInfo) → List Char → List UUIDInfo →
    List (List Char × List UUIDInfo)
  | [], k, v => [(k, v)]
  | e :: rest, k, v => if e.1 == k then (k, v) :: rest else e :: setKey rest k v

/-- Python `dict.update`: set every binding of `new` in order. -/
def dictUpdate (acc new : List (List Char × List UUIDInfo)) :
    List (List Char × List UUIDInfo) :=
  new.foldl (fun a kv => setKey a kv.1 kv.2) acc

/-- One step of the result-collection loop of `main` (`apkAnalyzer.py` lines
184-190): `global_uuid_info.update(future.result())`. -/
def batchStep (sep : Char) (acc : List (List Char × List UUIDInfo)) (p : Package) :
    List (List Char × List UUIDInfo) :=
  dictUpdate acc (extract_uuids_from_apk sep p)

/-- Embedding of `main`'s batch aggregation (`apkAnalyzer.py` lines 179-190):
the `.apk` files of the directory are each analysed and the resulting
singleton mappings merged into `global_uuid_info`.  `as_completed` yields the
futures in an arbitrary completion order; `pkgs` is that order, so a theorem
quantified over `pkgs` covers every completion order. -/
def mainBatch (sep : Char) (pkgs : List Package) : List (List Char × List UUIDInfo) :=
  (pkgs.filter (fun p => ".apk".toList.isSuffixOf p.fileName)).foldl (batchStep sep) []

/-- The fragment of JSON needed for the batch output and the downstream
filter script: strings, arrays and (insertion-ordered) objects. -/
inductive JVal where
  | jstr (s : List Char)
  | jarr (xs : List JVal)
  | jobj (fields : List (List Char × JVal))

/-- A `UUIDInfo` as serialised into the batch JSON (`to_dict`/`asdict`). -/
def uuidInfoToJson (u : UUIDInfo) : JVal :=
  JVal.jobj [("uuid".toList, JVal.jstr u.uuid),
             ("variable".toList, JVal.jstr u.varName),
             ("path".toList, JVal.jstr u.path)]

/-- The batch-mode output document written by `main` (`apkAnalyzer.py` lines
192-193): one JSON object keyed by package display names, each value the
array of that package's records. -/
def batchToJson (d : List (List Char × List UUIDInfo)) : JVal :=
  JVal.jobj (d.map (fun kv => (kv.1, JVal.jarr (kv.2.map uuidInfoToJson))))

/-- Python iteration (`for app in apps_data`) over a JSON value: iterating a
dict yields its keys (strings); iterating a list yields its elements;
iterating a string yields its one-character strings. -/
def pyIter : JVal → List JVal
  | JVal.jobj fs => fs.map (fun kv => JVal.jstr kv.1)
  | JVal.jarr xs => xs
  | JVal.jstr s => s.map (fun c => JVal.jstr [c])

/-- Python subscripting `app[key]` with a string key: a dict lookup
(`KeyError` when absent); on a string or a list it raises
`TypeError` (string/list indices must be integers). -/
def pySubscript (v : JVal) (key : List Char) : Except PyErr JVal :=
  match v with
  | JVal.jobj fs =>
    match List.lookup key fs with
    | some x => Except.ok x
    | none => Except.error PyErr.keyError
  | JVal.jstr _ => Except.error PyErr.typeError
  | JVal.jarr _ => Except.error PyErr.typeError

/-- The loop body of `extracter.py` lines 20-22: append `app["name"]` for
each iterated element, an exception aborting the loop. -/
def collectNames : List JVal → Except PyErr (List JVal)
  | [] => Except.ok []
  | a :: rest =>
    match pySubscript a ("name".toList) with
    | Except.error e => Except.error e
    | Except.ok n =>
      match collectNames rest with
      | Except.error e => Except.error e
      | Except.ok ns => Except.ok (n :: ns)

/-- Embedding of the `filtered_apps` computation of `extracter.py` (lines
20-22): iterate the loaded JSON document and collect each element's
`"name"` entry. -/
def filtered_apps (apps_data : JVal) : Except PyErr (List JVal) :=
  collectNames (pyIter apps_data)

/-- Modelled from the spec: the "batch with cleanup" / streaming-persistence
package task of sections 4.4, 4.5 and 7.  No such mode exists in
`src/apkAnalyzer.py` (`extract_uuids_from_apk` never deletes the decompiled
tree and nothing in `src` calls the `database.py` row-store); the spec
describes the task as decompile, then scan, then persist, with a guaranteed
(`try`/`finally`-style) recursive delete of `decompiled_root` once the
decompiler has created it.  The fields abstract the three fallible stages. -/
structure CleanupTask where
  decompileOk : Bool
  scanResult : Except PyErr (List UUIDInfo)
  persistResult : Except PyErr Unit

/-- Observable events of one cleanup-mode package task, in order. -/
inductive TaskEv where
  | decompileEv
  | scanEv
  | persistEv
  | deleteTreeEv
  | raiseEv (e : PyErr)
deriving DecidableEq, Repr

/-- Modelled from the spec: the event trace of one "batch with cleanup"
package task.  When decompilation fails no tree was created and the task
raises; once decompilation succeeds, the delete of `decompiled_root` runs on
every exit path — after a successful run, after a scan failure, and after a
persistence failure. -/
def cleanupTaskTrace (t : CleanupTask) : List TaskEv :=
  if t.decompileOk then
    TaskEv.decompileEv ::
      (match t.scanResult with
       | Except.error e => [TaskEv.raiseEv e, TaskEv.deleteTreeEv]
       | Except.ok _ =>
         TaskEv.scanEv ::
           (match t.persistResult with
            | Except.error e => [TaskEv.raiseEv e, TaskEv.deleteTreeEv]
            | Except.ok _ => [TaskEv.persistEv, TaskEv.deleteTreeEv]))
  else [TaskEv.raiseEv PyErr.calledProcessError]

/-- State of the worker pool: counts of queued, in-flight and finished
package analyses. -/
structure PoolState where
  pending : Nat
  running : Nat
  done : Nat
deriving DecidableEq, Repr

/-- Modelled from the spec: a fixed-size worker pool with cap `C` (section
5; `main` in `src` uses `ThreadPoolExecutor()` with the platform-default
cap, the explicitly capped persistence-mode runner is not in `src`).  A
pending task may start only when fewer than `C` are running; a running task
may finish. -/
inductive PoolStep (C : Nat) : PoolState → PoolState → Prop where
  | start (p r d : Nat) : r < C → PoolStep C ⟨p + 1, r, d⟩ ⟨p, r + 1, d⟩
  | finish (p r d : Nat) : PoolStep C ⟨p, r + 1, d⟩ ⟨p, r, d + 1⟩

/-- Reachability under the pool's step relation. -/
inductive PoolReach (C : Nat) : PoolState → PoolState → Prop where
  | refl (s : PoolState) : PoolReach C s s
  | tail {s t u : PoolState} : PoolReach C s t → PoolStep C t u → PoolReach C s u

/-- Concrete fixture: a matching assignment line, as decompiled Java. -/
def goodLine : List Char :=
  "UUID x = \"0000180d-0000-1000-8000-00805f9b34fb\";".toList

/-- Concrete fixture: a two-file source tree, one nested `.java` file with
one matching line and one non-source file. -/
def c6Files : List SrcFile :=
  [⟨["a".toList, "A.java".toList], Except.ok [goodLine]⟩,
   ⟨["README.md".toList], Except.ok [goodLine]⟩]

/-- The records the scan of `c6Files` produces on a POSIX host. -/
def c6Recs : List UUIDInfo :=
  [⟨"0000180d-0000-1000-8000-00805f9b34fb".toList, "x".toList, "a/A.java".toList⟩]

/-- Concrete fixture: a package whose decompilation and scan succeed. -/
def goodPkg : Package :=
  ⟨"AppA.apk".toList, Except.ok [⟨["A.java".toList], Except.ok [goodLine]⟩]⟩

/-- Concrete fixture: a package whose decompiler exits nonzero. -/
def badPkg : Package :=
  ⟨"AppB.apk".toList, Except.error PyErr.calledProcessError⟩

example :
    matchLine ("public static final UUID SERVICE_UUID = \"0000180d-0000-1000-8000-00805f9b34fb\";".toList)
      = Except.ok (some ("0000180d-0000-1000-8000-00805f9b34fb".toList, "SERVICE_UUID".toList)) := by
  decide

example :
    matchLine ("= \"0000180d-0000-1000-8000-00805f9b34fb\";".toList)
      = Except.error PyErr.indexError := by
  decide

example :
    matchLine ("UUID z = \"00000000-0000-0000-0000-000000000000\";".toList)
      = Except.ok none := by
  decide

/-! ## Helper lemmas -/

theorem searchUuid_none_of_allzero (line : List Char)
    (h : ∀ m ∈ shapeSubstrings line, m = allZeroUuid) : searchUuid line = none := by
  induction line with
  | nil => rfl
  | cons c rest ih =>
    by_cases hs : shapeAtHead (c :: rest) = true
    · have hz : (c :: rest).take 36 = allZeroUuid := by
        apply h
        simp [shapeSubstrings, hs]
      rw [searchUuid]
      simp only [hs, hz, beq_self_eq_true, Bool.not_true, Bool.and_false, if_false]
      exact ih (fun m hm => h m (by simp [shapeSubstrings, hs, hm]))
    · rw [searchUuid]
      simp only [Bool.not_eq_true] at hs
      simp only [hs, Bool.false_and, if_false]
      exact ih (fun m hm => h m (by simp [shapeSubstrings, hs, hm]))

theorem searchUuid_some_of_shape (line m : List Char)
    (hm : m ∈ shapeSubstrings line) (hne : m ≠ allZeroUuid) :
    ∃ r, searchUuid line = some r ∧ r ≠ allZeroUuid := by
  induction line with
  | nil => simp [shapeSubstrings] at hm
  | cons c rest ih =>
    by_cases hs : shapeAtHead (c :: rest) = true
    · by_cases hz : (c :: rest).take 36 = allZeroUuid
      · have hm' : m ∈ shapeSubstrings rest := by
          simp only [shapeSubstrings, hs, if_true, List.mem_append, List.mem_singleton] at hm
          rcases hm with h1 | h2
          · exact absurd (h1.trans hz) hne
          · exact h2
        rcases ih hm' with ⟨r, hr, hrne⟩
        refine ⟨r, ?_, hrne⟩
        rw [searchUuid]
        simp only [hs, hz, beq_self_eq_true, Bool.not_true, Bool.and_false, if_false]
        exact hr
      · refine ⟨(c :: rest).take 36, ?_, hz⟩
        rw [searchUuid]
        have hbeq : ((c :: rest).take 36 == allZeroUuid) = false := by
          simpa using hz
        rw [hs, hbeq]
        rfl
    · have hm' : m ∈ shapeSubstrings rest := by
        simp only [Bool.not_eq_true] at hs
        simpa [shapeSubstrings, hs] using hm
      rcases ih hm' with ⟨r, hr, hrne⟩
      refine ⟨r, ?_, hrne⟩
      rw [searchUuid]
      simp only [Bool.not_eq_true] at hs
      simp only [hs, Bool.false_and, if_false]
      exact hr

theorem match_uuids_ok (rp : List Char) (lines : List (List Char)) (recs : List UUIDInfo)
    (h : match_uuids rp lines = Except.ok recs) :
    recs.length = (lines.filter lineEmits).length ∧ ∀ r ∈ recs, r.path = rp := by
  induction lines generalizing recs with
  | nil =>
    rw [match_uuids] at h
    cases h
    simp
  | cons l ls ih =>
    rw [match_uuids] at h
    cases hm : matchLine l with
    | error e => rw [hm] at h; cases h
    | ok o =>
      cases o with
      | none =>
        rw [hm] at h
        have hemit : lineEmits l = false := by simp [lineEmits, hm]
        rcases ih recs h with ⟨h1, h2⟩
        refine ⟨?_, h2⟩
        simp [List.filter_cons, hemit, h1]
      | some uv =>
        rw [hm] at h
        cases hrec : match_uuids rp ls with
        | error e => rw [hrec] at h; cases h
        | ok infos =>
          rw [hrec] at h
          cases h
          have hemit : lineEmits l = true := by simp [lineEmits, hm]
          rcases ih infos hrec with ⟨h1, h2⟩
          constructor
          · simp [List.filter_cons, hemit, h1]
          · intro r hr
            rcases List.mem_cons.mp hr with h | h
            · rw [h]
            · exact h2 r h

/-! ## Claim theorems -/

/-- C2: the spec requires that a line containing a UUID-shaped substring and
an `=` but no non-whitespace token before the first `=` emit no record and
not raise.  The code instead raises `IndexError` at
`variable_part.split()[-1]` (`apkAnalyzer.py` line 71), and that exception
propagates, discarding the records of the file's other lines. -/
theorem C2_blank_lhs_raises :
    matchLine ("= \"0000180d-0000-1000-8000-00805f9b34fb\";".toList)
      = Except.error PyErr.indexError ∧
    match_uuids ("A.java".toList)
      ["UUID x = \"0000180d-0000-1000-8000-00805f9b34fb\";".toList,
       "= \"0000180d-0000-1000-8000-00805f9b34fb\";".toList]
      = Except.error PyErr.indexError := by
  constructor
  · decide
  · decide

/-- C3: the spec requires that a file failing to decode as UTF-8 contribute
zero records while the scan of the remaining tree continues.  The code has
no handler around `match_uuids` in the walk loop (`apkAnalyzer.py` lines
138-145), so the decode error aborts the whole tree scan and discards the
records of the other files: scanning a tree of one good file and one
undecodable file errors, while the good file alone yields its record. -/
theorem C3_decode_failure_aborts_scan :
    Analyzer_match_uuids '/'
      [⟨["A.java".toList], Except.ok ["UUID x = \"0000180d-0000-1000-8000-00805f9b34fb\";".toList]⟩,
       ⟨["B.java".toList], Except.error PyErr.unicodeDecodeError⟩]
      = Except.error PyErr.unicodeDecodeError ∧
    Analyzer_match_uuids '/'
      [⟨["A.java".toList], Except.ok ["UUID x = \"0000180d-0000-1000-8000-00805f9b34fb\";".toList]⟩]
      = Except.ok [⟨"0000180d-0000-1000-8000-00805f9b34fb".toList, "x".toList, "A.java".toList⟩] := by
  constructor
  · decide
  · decide

/-- C5: a line whose only UUID-shaped substrings are the all-zero sentinel
produces no record, whatever the surrounding content; and exactly that one
value is excluded — a line containing any UUID-shaped substring other than
the all-zero literal is matched normally (the regex search succeeds, with a
non-all-zero match). -/
theorem C5_allzero_sentinel_excluded :
    (∀ line : List Char, (∀ m ∈ shapeSubstrings line, m = allZeroUuid) →
      matchLine line = Except.ok none) ∧
    (∀ line m : List Char, m ∈ shapeSubstrings line → m ≠ allZeroUuid →
      ∃ r, searchUuid line = some r ∧ r ≠ allZeroUuid) := by
  constructor
  · intro line h
    have hn : searchUuid line = none := searchUuid_none_of_allzero line h
    simp [matchLine, hn]
  · exact searchUuid_some_of_shape

/-- Witness for C5 at concrete lines: an assignment line whose only
UUID-shaped substring is the all-zero sentinel yields no record, and the
same line with one character changed is matched. -/
theorem C5_allzero_sentinel_excluded_witness :
    matchLine ("UUID z = \"00000000-0000-0000-0000-000000000000\";".toList) = Except.ok none ∧
    ∃ r, searchUuid ("UUID z = \"10000000-0000-0000-0000-000000000000\";".toList) = some r ∧
      r ≠ allZeroUuid := by
  constructor
  · exact C5_allzero_sentinel_excluded.1 _ (by decide)
  · exact C5_allzero_sentinel_excluded.2 _
      ("10000000-0000-0000-0000-000000000000".toList) (by decide) (by decide)

/-- C1: for every line on which the regex search succeeds and which contains
an `=` (which is in particular the case when an `=` precedes the UUID), and
whose trimmed text left of the first `=` has at least one whitespace token,
the matcher emits a record whose uuid is the matched text with surrounding
quotes stripped and whose variable is the last such token; and on the
literal spec line it produces uuid `0000180d-0000-1000-8000-00805f9b34fb`
and variable `SERVICE_UUID`. -/
theorem C1_matcher_extraction :
    (∀ (rp line m t : List Char) (ts : List (List Char)),
      searchUuid line = some m →
      line.contains '=' = true →
      lhsTokens line = t :: ts →
      processLine rp line =
        Except.ok (some ⟨pyStripQuotes m, (t :: ts).getLastD [], rp⟩)) ∧
    (∀ rp : List Char,
      processLine rp
        ("public static final UUID SERVICE_UUID = \"0000180d-0000-1000-8000-00805f9b34fb\";".toList) =
        Except.ok (some ⟨"0000180d-0000-1000-8000-00805f9b34fb".toList,
          "SERVICE_UUID".toList, rp⟩)) := by
  constructor
  · intro rp line m t ts h1 h2 h3
    rw [processLine, matchLine, h1]
    simp only [h2, if_true]
    rw [h3]
  · intro rp
    have h : matchLine
        ("public static final UUID SERVICE_UUID = \"0000180d-0000-1000-8000-00805f9b34fb\";".toList) =
        Except.ok (some ("0000180d-0000-1000-8000-00805f9b34fb".toList, "SERVICE_UUID".toList)) := by
      decide
    rw [processLine, h]

/-- Witness for C1's universal part at the literal spec line. -/
theorem C1_matcher_extraction_witness :
    processLine []
      ("public static final UUID SERVICE_UUID = \"0000180d-0000-1000-8000-00805f9b34fb\";".toList) =
      Except.ok (some ⟨"0000180d-0000-1000-8000-00805f9b34fb".toList, "SERVICE_UUID".toList, []⟩) := by
  have h := C1_matcher_extraction.1 []
    ("public static final UUID SERVICE_UUID = \"0000180d-0000-1000-8000-00805f9b34fb\";".toList)
    ("0000180d-0000-1000-8000-00805f9b34fb".toList)
    ("public".toList)
    ["static".toList, "final".toList, "UUID".toList, "SERVICE_UUID".toList]
    (by decide) (by decide) (by decide)
  exact h.trans (by decide)

/-- C7: in batch-with-cleanup operation, the decompiled tree is deleted on
every exit path once decompilation has produced it — also when the scan or
the persistence step raises — and the delete is the task's final action.
(Spec-modelled: no cleanup mode exists in `src`; see `cleanupTaskTrace`.) -/
theorem C7_cleanup_on_all_exit_paths (t : CleanupTask) (h : t.decompileOk = true) :
    TaskEv.deleteTreeEv ∈ cleanupTaskTrace t ∧
    (cleanupTaskTrace t).getLastD TaskEv.decompileEv = TaskEv.deleteTreeEv := by
  rcases t with ⟨d, sr, pr⟩
  simp only at h
  subst h
  cases sr with
  | error e => simp [cleanupTaskTrace]
  | ok recs =>
    cases pr with
    | error e => simp [cleanupTaskTrace]
    | ok u => simp [cleanupTaskTrace]

/-- Witness for C7 at a concrete task whose scan raises. -/
theorem C7_cleanup_on_all_exit_paths_witness :
    TaskEv.deleteTreeEv ∈
      cleanupTaskTrace ⟨true, Except.error PyErr.unicodeDecodeError, Except.ok ()⟩ ∧
    (cleanupTaskTrace ⟨true, Except.error PyErr.unicodeDecodeError, Except.ok ()⟩).getLastD
      TaskEv.decompileEv = TaskEv.deleteTreeEv :=
  C7_cleanup_on_all_exit_paths ⟨true, Except.error PyErr.unicodeDecodeError, Except.ok ()⟩ rfl

/-- C9: under the capped worker pool with cap `C`, every state reachable
from an initial state with no running task has at most `C` analyses in
flight.  (Spec-modelled: the capped pool of section 5 as a step relation;
`main` in `src` uses the platform-default cap.) -/
theorem C9_pool_concurrency_bound (C K : Nat) (s : PoolState)
    (h : PoolReach C ⟨K, 0, 0⟩ s) : s.running ≤ C := by
  have inv : ∀ s₀ s₁ : PoolState, PoolReach C s₀ s₁ → s₀.running ≤ C → s₁.running ≤ C := by
    intro s₀ s₁ hr
    induction hr with
    | refl => exact id
    | tail hr hs ih =>
      intro h0
      have ht := ih h0
      cases hs with
      | start p r d hlt => simpa using hlt
      | finish p r d =>
        simp only at ht ⊢
        omega
  exact inv _ _ h (by simp)

/-- Witness for C9: with cap 2, after starting one of three queued tasks,
one analysis is in flight, which is within the bound. -/
theorem C9_pool_concurrency_bound_witness : (PoolState.mk 2 1 0).running ≤ 2 :=
  C9_pool_concurrency_bound 2 3 ⟨2, 1, 0⟩
    (PoolReach.tail (PoolReach.refl _) (PoolStep.start 2 0 0 (by decide)))

/-- C10: `extract_uuids_from_apk` never propagates an exception: for every
package, either the pipeline raised (any of the modelled
`Exception`-derived errors) and the function returns the empty mapping, or
the pipeline's result is returned unchanged.  Consequently `future.result()`
in `main`'s collection loop never re-raises and the per-future `except`
handler is unreachable. -/
theorem C10_extract_never_raises (sep : Char) (p : Package) :
    (∃ e, analyzePipeline sep p = Except.error e ∧ extract_uuids_from_apk sep p = []) ∨
    (∃ v, analyzePipeline sep p = Except.ok v ∧ extract_uuids_from_apk sep p = v) := by
  cases h : analyzePipeline sep p with
  | error e => exact Or.inl ⟨e, rfl, by rw [extract_uuids_from_apk, h]⟩
  | ok v => exact Or.inr ⟨v, rfl, by rw [extract_uuids_from_apk, h]⟩

/-- C8 counterexample: the filter script's input contract does NOT match the
batch output.  Applied to a batch-mode document (a JSON object keyed by
package display names), `for app in apps_data` iterates the keys (strings)
and `app["name"]` raises `TypeError`; the script never produces the name
list the claim describes. -/
theorem C8_contract_mismatch :
    filtered_apps (batchToJson [("AppA".toList, [])]) = Except.error PyErr.typeError := by
  rfl

/-- C8 amended: the filter script's input contract is a JSON array of
objects each carrying a `"name"` entry (the schema of its own
`resultTemp.json` input, not the batch output): over such an array it
projects down to exactly the list of the `"name"` values. -/
theorem C8_filter_projects_names (pairs : List (JVal × JVal))
    (h : ∀ q ∈ pairs, pySubscript q.1 ("name".toList) = Except.ok q.2) :
    filtered_apps (JVal.jarr (pairs.map (fun q => q.1))) =
      Except.ok (pairs.map (fun q => q.2)) := by
  induction pairs with
  | nil => rfl
  | cons q rest ih =>
    have hq : pySubscript q.1 ("name".toList) = Except.ok q.2 := h q (List.mem_cons_self q rest)
    have hrest := ih (fun r hr => h r (List.mem_cons_of_mem q hr))
    rw [filtered_apps] at hrest ⊢
    simp only [pyIter] at hrest ⊢
    rw [List.map_cons, collectNames, hq, hrest]
    rfl

theorem Analyzer_match_uuids_skips_nonjava (sep : Char) (files : List SrcFile) :
    Analyzer_match_uuids sep files = Analyzer_match_uuids sep (files.filter isJavaFile) := by
  induction files with
  | nil => rfl
  | cons f rest ih =>
    cases hf : isJavaFile f with
    | true =>
      rw [Analyzer_match_uuids, List.filter_cons]
      simp only [hf, if_true]
      rw [Analyzer_match_uuids]
      simp only [hf, if_true, ih]
    | false =>
      rw [Analyzer_match_uuids, List.filter_cons]
      simp only [hf, if_false, Bool.false_eq_true]
      rw [ih]

theorem Analyzer_match_uuids_ok (sep : Char) (files : List SrcFile) (recs : List UUIDInfo)
    (h : Analyzer_match_uuids sep files = Except.ok recs) :
    recs.length = ((files.filter isJavaFile).map fileMatchCount).sum ∧
    ∀ r ∈ recs, ∃ f ∈ files, isJavaFile f = true ∧ r.path = relPathOf sep f := by
  induction files generalizing recs with
  | nil =>
    rw [Analyzer_match_uuids] at h
    cases h
    simp
  | cons f rest ih =>
    rw [Analyzer_match_uuids] at h
    cases hf : isJavaFile f with
    | true =>
      rw [hf, if_pos rfl] at h
      cases hfr : fileRecords sep f with
      | error e => rw [hfr] at h; cases h
      | ok infos =>
        rw [hfr] at h
        cases hrest : Analyzer_match_uuids sep rest with
        | error e => rw [hrest] at h; cases h
        | ok more =>
          rw [hrest] at h
          cases h
          rcases ih more hrest with ⟨ih1, ih2⟩
          constructor
          · have hlen : infos.length = fileMatchCount f := by
              rw [fileMatchCount]
              cases hc : f.content with
              | error e => rw [fileRecords, hc] at hfr; cases hfr
              | ok lines =>
                rw [fileRecords, hc] at hfr
                exact (match_uuids_ok _ _ _ hfr).1
            simp [List.filter_cons, hf, hlen, ih1]
          · intro r hr
            rcases List.mem_append.mp hr with hri | hrm
            · refine ⟨f, List.mem_cons_self f rest, hf, ?_⟩
              cases hc : f.content with
              | error e => rw [fileRecords, hc] at hfr; cases hfr
              | ok lines =>
                rw [fileRecords, hc] at hfr
                exact (match_uuids_ok _ _ _ hfr).2 r hri
            · rcases ih2 r hrm with ⟨g, hg, hgj, hgp⟩
              exact ⟨g, List.mem_cons_of_mem f hg, hgj, hgp⟩
    | false =>
      rw [hf, if_neg (by simp)] at h
      rcases ih recs h with ⟨ih1, ih2⟩
      constructor
      · simp [List.filter_cons, hf, ih1]
      · intro r hr
        rcases ih2 r hr with ⟨g, hg, hgj, hgp⟩
        exact ⟨g, List.mem_cons_of_mem f hg, hgj, hgp⟩

/-- C6 (amended): on a tree whose scan completes, the scan yields exactly
one record per matching line of the `.java` files (non-source files are
skipped silently and contribute nothing to the result), and every record's
path is the file's location relative to the scanned root joined with the
HOST path separator `os.sep` — forward slashes on POSIX hosts only; the
code does not normalize separators. -/
theorem C6_scan_exactly_matching_lines (sep : Char) (files : List SrcFile)
    (recs : List UUIDInfo) (h : Analyzer_match_uuids sep files = Except.ok recs) :
    recs.length = ((files.filter isJavaFile).map fileMatchCount).sum ∧
    (∀ r ∈ recs, ∃ f ∈ files, isJavaFile f = true ∧ r.path = relPathOf sep f) ∧
    Analyzer_match_uuids sep files = Analyzer_match_uuids sep (files.filter isJavaFile) :=
  ⟨(Analyzer_match_uuids_ok sep files recs h).1,
   (Analyzer_match_uuids_ok sep files recs h).2,
   Analyzer_match_uuids_skips_nonjava sep files⟩

/-- Witness for C6's amended claim: scanning `c6Files` on a POSIX host
(`os.sep = '/'`) yields exactly the one record of its one matching line in
its one `.java` file, with a slash-relative path. -/
theorem C6_scan_exactly_matching_lines_witness :
    c6Recs.length = ((c6Files.filter isJavaFile).map fileMatchCount).sum ∧
    (∀ r ∈ c6Recs, ∃ f ∈ c6Files, isJavaFile f = true ∧ r.path = relPathOf '/' f) ∧
    Analyzer_match_uuids '/' c6Files = Analyzer_match_uuids '/' (c6Files.filter isJavaFile) :=
  C6_scan_exactly_matching_lines '/' c6Files c6Recs (by decide)

/-- C6 counterexample to the claim as stated: with the Windows host
separator (`os.sep = '\'`, used by `os.walk`/`os.path.join`/
`os.path.relpath`, which the code passes through unchanged), the record's
path contains a backslash and no forward slash, so paths do NOT use
forward-slash separators regardless of host path conventions. -/
theorem C6_separator_counterexample :
    Analyzer_match_uuids '\\'
      [⟨["a".toList, "B.java".toList], Except.ok [goodLine]⟩] =
      Except.ok [⟨"0000180d-0000-1000-8000-00805f9b34fb".toList, "x".toList,
        "a\\B.java".toList⟩] ∧
    ("a\\B.java".toList).contains '/' = false ∧
    ("a\\B.java".toList).contains '\\' = true := by
  constructor
  · decide
  · constructor
    · decide
    · decide

/-- Witness for C8's amended claim at a one-element array. -/
theorem C8_filter_projects_names_witness :
    filtered_apps (JVal.jarr [JVal.jobj [("name".toList, JVal.jstr ("AppA".toList))]]) =
      Except.ok [JVal.jstr ("AppA".toList)] := by
  have h := C8_filter_projects_names
    [(JVal.jobj [("name".toList, JVal.jstr ("AppA".toList))], JVal.jstr ("AppA".toList))]
    (by
      intro q hq
      rw [List.mem_singleton] at hq
      subst hq
      rfl)
  exact h

theorem extract_of_pipeline_error (sep : Char) (p : Package) (e : PyErr)
    (h : analyzePipeline sep p = Except.error e) :
    extract_uuids_from_apk sep p = [] := by
  rw [extract_uuids_from_apk, h]

theorem extract_of_pipeline_ok (sep : Char) (p : Package)
    (v : List (List Char × List UUIDInfo)) (h : analyzePipeline sep p = Except.ok v) :
    extract_uuids_from_apk sep p = v := by
  rw [extract_uuids_from_apk, h]

theorem analyzePipeline_ok_shape (sep : Char) (p : Package)
    (v : List (List Char × List UUIDInfo)) (h : analyzePipeline sep p = Except.ok v) :
    ∃ recs, v = [(displayName p, recs)] := by
  rw [analyzePipeline] at h
  split at h
  · cases h
  · split at h
    · cases h
    · cases h
      exact ⟨_, rfl⟩

theorem setKey_lookup_self (acc : List (List Char × List UUIDInfo)) (k : List Char)
    (v : List UUIDInfo) : List.lookup k (setKey acc k v) = some v := by
  induction acc with
  | nil => simp [setKey, List.lookup]
  | cons e rest ih =>
    rw [setKey]
    by_cases he : (e.1 == k) = true
    · rw [if_pos he]
      simp [List.lookup]
    · rw [if_neg he]
      rcases e with ⟨ek, ev⟩
      simp only at he
      have hke : (k == ek) = false := by
        rw [beq_eq_false_iff_ne]
        intro hh
        exact he (by rw [hh, beq_self_eq_true])
      rw [List.lookup, hke]
      exact ih

theorem setKey_lookup_other (acc : List (List Char × List UUIDInfo)) (k k' : List Char)
    (v : List UUIDInfo) (hne : k' ≠ k) :
    List.lookup k' (setKey acc k v) = List.lookup k' acc := by
  have hb : (k' == k) = false := beq_eq_false_iff_ne.mpr hne
  induction acc with
  | nil => simp [setKey, List.lookup, hb]
  | cons e rest ih =>
    rw [setKey]
    by_cases he : (e.1 == k) = true
    · rw [if_pos he]
      rcases e with ⟨ek, ev⟩
      simp only at he
      have hek : ek = k := beq_iff_eq.mp he
      subst hek
      rw [List.lookup, List.lookup, hb]
    · rw [if_neg he]
      rcases e with ⟨ek, ev⟩
      rw [List.lookup, List.lookup]
      cases hke : (k' == ek) with
      | true => rfl
      | false => exact ih

theorem batch_lookup_frozen (sep : Char) (pkgs : List Package) :
    ∀ (acc : List (List Char × List UUIDInfo)) (k : List Char),
      (∀ p ∈ pkgs, displayName p = k → extract_uuids_from_apk sep p = []) →
      List.lookup k (pkgs.foldl (batchStep sep) acc) = List.lookup k acc := by
  induction pkgs with
  | nil => intro acc k _; rfl
  | cons p rest ih =>
    intro acc k h
    rw [List.foldl_cons, ih _ _ (fun q hq hdq => h q (List.mem_cons_of_mem p hq) hdq)]
    cases he : analyzePipeline sep p with
    | error e =>
      rw [batchStep, extract_of_pipeline_error sep p e he]
      rfl
    | ok v =>
      rcases analyzePipeline_ok_shape sep p v he with ⟨recs, hv⟩
      subst hv
      rw [batchStep, extract_of_pipeline_ok sep p _ he]
      show List.lookup k (setKey acc (displayName p) recs) = List.lookup k acc
      by_cases hk : displayName p = k
      · have hex : extract_uuids_from_apk sep p = [] := h p (List.mem_cons_self p rest) hk
        rw [extract_of_pipeline_ok sep p _ he] at hex
        cases hex
      · exact setKey_lookup_other acc (displayName p) k recs (fun hh => hk hh.symm)

theorem batch_lookup_found (sep : Char) (A B : List Package) (p : Package)
    (recs : List UUIDInfo)
    (hp : analyzePipeline sep p = Except.ok [(displayName p, recs)])
    (hnot : displayName p ∉ B.map displayName) :
    List.lookup (displayName p) ((A ++ p :: B).foldl (batchStep sep) []) = some recs := by
  rw [List.foldl_append, List.foldl_cons]
  rw [batch_lookup_frozen sep B _ _ ?_]
  · rw [batchStep, extract_of_pipeline_ok sep p _ hp]
    show List.lookup (displayName p) (setKey _ (displayName p) recs) = some recs
    exact setKey_lookup_self _ _ _
  · intro q hq hdq
    exact absurd (hdq ▸ List.mem_map_of_mem displayName hq) hnot

/-- C4: over a batch of `.apk` packages with pairwise-distinct display
names in which one package's analysis fails (its pipeline raises, e.g. a
nonzero decompiler exit), the batch still completes with the failing
package absent from the output mapping, while every other package whose
pipeline succeeds appears with its records.  `pkgs = l₁ ++ b :: l₂` is the
completion order of the futures, so quantifying over the split covers every
order. -/
theorem C4_partial_failure_isolation (sep : Char) (l₁ l₂ : List Package) (b : Package)
    (e : PyErr)
    (hapk : ∀ p ∈ l₁ ++ b :: l₂, (".apk".toList.isSuffixOf p.fileName) = true)
    (hnodup : ((l₁ ++ b :: l₂).map displayName).Nodup)
    (hb : analyzePipeline sep b = Except.error e) :
    List.lookup (displayName b) (mainBatch sep (l₁ ++ b :: l₂)) = none ∧
    ∀ p ∈ l₁ ++ l₂, ∀ recs,
      analyzePipeline sep p = Except.ok [(displayName p, recs)] →
      List.lookup (displayName p) (mainBatch sep (l₁ ++ b :: l₂)) = some recs := by
  have hfilter : (l₁ ++ b :: l₂).filter
      (fun p => (".apk".toList.isSuffixOf p.fileName)) = l₁ ++ b :: l₂ :=
    List.filter_eq_self.mpr hapk
  unfold mainBatch
  rw [hfilter]
  simp only [List.map_append, List.map_cons] at hnodup
  rw [List.nodup_append] at hnodup
  rcases hnodup with ⟨hn1, hn2, hdisj⟩
  rw [List.nodup_cons] at hn2
  rcases hn2 with ⟨hbnot, hn2⟩
  constructor
  · rw [batch_lookup_frozen sep (l₁ ++ b :: l₂) [] (displayName b) ?_]
    · rfl
    · intro q hq hdq
      rcases List.mem_append.mp hq with hq1 | hq2
      · exact absurd (List.mem_cons_self _ _)
          (hdisj (hdq ▸ List.mem_map_of_mem displayName hq1))
      · rcases List.mem_cons.mp hq2 with hqb | hq2
        · subst hqb
          exact extract_of_pipeline_error sep q e hb
        · exact absurd (hdq ▸ List.mem_map_of_mem displayName hq2) hbnot
  · intro p hp recs hpip
    rcases List.mem_append.mp hp with hp1 | hp2
    · rcases List.append_of_mem hp1 with ⟨u, w, rfl⟩
      have hre : (u ++ p :: w) ++ b :: l₂ = u ++ p :: (w ++ b :: l₂) := by simp
      rw [hre]
      apply batch_lookup_found sep u (w ++ b :: l₂) p recs hpip
      intro hmem
      have hpmem : displayName p ∈ (u ++ p :: w).map displayName := by simp
      have hnotr : displayName p ∉ (displayName b :: l₂.map displayName) := hdisj hpmem
      simp only [List.map_append, List.map_cons, List.mem_append, List.mem_cons] at hmem
      rcases hmem with hw | hbq | hl2
      · have hnd := hn1
        simp only [List.map_append, List.map_cons] at hnd
        rw [List.nodup_append] at hnd
        exact (List.nodup_cons.mp hnd.2.1).1 hw
      · exact hnotr (List.mem_cons.mpr (Or.inl hbq))
      · exact hnotr (List.mem_cons.mpr (Or.inr hl2))
    · rcases List.append_of_mem hp2 with ⟨u, w, rfl⟩
      have hre : l₁ ++ b :: (u ++ p :: w) = (l₁ ++ b :: u) ++ p :: w := by simp
      rw [hre]
      apply batch_lookup_found sep (l₁ ++ b :: u) w p recs hpip
      intro hmem
      simp only [List.map_append, List.map_cons] at hn2
      rw [List.nodup_append] at hn2
      rcases hn2 with ⟨_, hnw, _⟩
      rw [List.nodup_cons] at hnw
      exact hnw.1 hmem

/-- Witness for C4: a two-package batch (in completion order
`[goodPkg, badPkg]`) where `badPkg`'s decompiler fails: `AppB` is absent
from the output and `AppA` is present with its record. -/
theorem C4_partial_failure_isolation_witness :
    List.lookup (displayName badPkg) (mainBatch '/' ([goodPkg] ++ badPkg :: [])) = none ∧
    ∀ p ∈ [goodPkg] ++ [], ∀ recs,
      analyzePipeline '/' p = Except.ok [(displayName p, recs)] →
      List.lookup (displayName p) (mainBatch '/' ([goodPkg] ++ badPkg :: [])) = some recs :=
  C4_partial_failure_isolation '/' [goodPkg] [] badPkg PyErr.calledProcessError
    (by decide) (by decide) (by decide)
